import Mathlib

/-!
Verification development for the Know-Flow backend (`src/backend`).

The Python sources are shallowly embedded: pure functions become Lean
functions, the opaque LLM-team invocation (`leader.run`) becomes an explicit
function parameter, Firestore becomes an explicit in-memory state threaded
through the handlers, and Python exceptions become `Except` values.  Machine
floats of the quality score are modelled over `ℚ` (the score arithmetic is
exact decimal arithmetic in the spec's reading).
-/

namespace KnowFlow

/-! ## content_generation.py -/

/-- A Python exception, identified by its class name (`type(e).__name__`)
and its message (`str(e)`). -/
structure PyExc where
  name : String
  msg : String
deriving DecidableEq, Repr

/-- The `retryable_errors` list inside `should_retry`
(content_generation.py, lines 427-432). -/
def retryable_errors : List String :=
  ["ConnectionError", "TimeoutError", "RateLimitError", "ServiceUnavailableError"]

/-- `should_retry` (content_generation.py, lines 416-435): retry exactly when
the exception's class name is in `retryable_errors`. -/
def should_retry (e : PyExc) : Bool :=
  retryable_errors.contains e.name

/-- The response object returned by `leader.run`.  `content` models
`response.content` (`none` when the attribute is missing or `None`;
Python treats `""` as falsy, which the embedded functions reproduce).
`structured_outputs` models `hasattr(response, 'structured_outputs') and
response.structured_outputs` as a single boolean. -/
structure AgentResponse where
  content : Option String
  structured_outputs : Bool
deriving DecidableEq, Repr

/-- Length of `str(response.content)` when present, `0` otherwise. -/
def contentLen (r : AgentResponse) : Nat :=
  match r.content with
  | some s => s.length
  | none => 0

/-- `calculate_quality_score` (content_generation.py, lines 359-387):
base `0.5`; `+0.2` when the content is truthy and longer than `1000`;
a further `+0.1` when longer than `2000`; `+0.2` when `structured_outputs`
is truthy; finally `min(score, 1.0)`. -/
def calculate_quality_score (r : AgentResponse) : ℚ :=
  let score : ℚ := 1/2
  let score :=
    match r.content with
    | some s =>
      if s = "" then score
      else
        let score := if s.length > 1000 then score + 2/10 else score
        if s.length > 2000 then score + 1/10 else score
    | none => score
  let score := if r.structured_outputs then score + 2/10 else score
  min score 1

/-- `estimate_completion_time` (content_generation.py, lines 389-414):
base `30` minutes, `+30` when truthy content is longer than `2000`,
`+60` when longer than `5000`. -/
def estimate_completion_time (r : AgentResponse) : Nat :=
  let t := 30
  match r.content with
  | some s =>
    if s = "" then t
    else
      let t := if s.length > 2000 then t + 30 else t
      if s.length > 5000 then t + 60 else t
  | none => t

/-- The optional `context` dictionary passed to `generate_learning_plan`. -/
abbrev Ctx := List (String × String)

/-- `json.dumps(context)` for the string-valued context maps we model. -/
def jsonDumps (c : Ctx) : String :=
  "\x7b" ++ String.intercalate ", "
    (c.map (fun kv => "\"" ++ kv.1 ++ "\": \"" ++ kv.2 ++ "\"")) ++ "\x7d"

/-- The `enhanced_prompt` string built by `generate_learning_plan`
(content_generation.py, lines 319-321).  Python's `if context:` is false for
`None` and for the empty dict. -/
def enhanced_prompt (uid prompt : String) (ctx : Option Ctx) : String :=
  let base := "user_id=" ++ uid ++ ", prompt=" ++ prompt
  match ctx with
  | some c => if c.isEmpty then base else base ++ ", context=" ++ jsonDumps c
  | none => base

/-- The success dictionary returned by `generate_learning_plan`
(content_generation.py, lines 335-345); wall-clock fields
(`processing_time`, `timestamp`) are outside the embedding. -/
structure SuccessInfo where
  user_id : String
  prompt : String
  response : AgentResponse
  context : Option Ctx
  quality_score : ℚ
  estimated_completion_time : Nat
deriving DecidableEq, Repr

/-- The failure dictionary returned by `generate_learning_plan`
(content_generation.py, lines 349-357): `error = str(e)`,
`error_type = type(e).__name__`, `retry_recommended = should_retry(e)`. -/
structure FailureInfo where
  user_id : String
  prompt : String
  error : String
  error_type : String
  retry_recommended : Bool
deriving DecidableEq, Repr

/-- The structured outcome dictionary of `generate_learning_plan`:
either the `success=True` shape or the `success=False` shape. -/
inductive Outcome where
  | ok (info : SuccessInfo)
  | failed (info : FailureInfo)
deriving DecidableEq, Repr

/-- The `success` field of the outcome dictionary. -/
def Outcome.success : Outcome → Bool
  | .ok _ => true
  | .failed _ => false

/-- `generate_learning_plan` (content_generation.py, lines 303-357),
instrumented with the number of `leader.run` invocations it performs.
`worker n` is the result of the `n`-th invocation of `leader.run`
(an `AgentResponse`, or the exception it raises).  The body calls
`leader.run` exactly once — there is no retry loop in the source — so the
returned count is `1` on both paths. -/
def generate_learning_plan_runs (worker : Nat → Except PyExc AgentResponse)
    (uid prompt : String) (ctx : Option Ctx) : Outcome × Nat :=
  match worker 0 with
  | .ok resp =>
      (.ok ⟨uid, prompt, resp, ctx,
            calculate_quality_score resp, estimate_completion_time resp⟩, 1)
  | .error e =>
      (.failed ⟨uid, prompt, e.msg, e.name, should_retry e⟩, 1)

/-- `generate_learning_plan` proper: runs the leader team on the enhanced
prompt; the `try/except Exception` wrapper maps every raised exception to
the `success=False` dictionary, so the function is total. -/
def generate_learning_plan (runLeader : String → Except PyExc AgentResponse)
    (uid prompt : String) (ctx : Option Ctx) : Outcome :=
  (generate_learning_plan_runs
    (fun _ => runLeader (enhanced_prompt uid prompt ctx)) uid prompt ctx).1

/-! ## config.py -/

/-- The process environment: `os.getenv`. -/
abbrev Env := String → Option String

/-- `os.getenv(key, default)`. -/
def getenv (env : Env) (k d : String) : String :=
  (env k).getD d

/-- The `Config` class of config.py, one Lean field per class attribute
(config.py, lines 12-34). -/
structure Config where
  FIREBASE_PROJECT_ID : String
  FIREBASE_CLIENT_EMAIL : String
  FIREBASE_PRIVATE_KEY : String
  FIRESTORE_PATH : Option String
  OPENAI_API_KEY : String
  ANTHROPIC_API_KEY : String
  PORT : Nat
  HOST : String
  DEBUG : Bool
  DATABASE_COLLECTION_USERS : String
  DATABASE_COLLECTION_LESSON_PLANS : String
  DATABASE_COLLECTION_PROMPTS : String
  DATABASE_COLLECTION_KNOWLEDGE_GRAPHS : String
  MAX_LESSONS_PER_PLAN : Nat
  MAX_EXTERNAL_RESOURCES_PER_LESSON : Nat
deriving DecidableEq, Repr

/-- The names of the `Config` class attributes, in source order
(config.py, lines 12-34). -/
def configFieldNames : List String :=
  ["FIREBASE_PROJECT_ID", "FIREBASE_CLIENT_EMAIL", "FIREBASE_PRIVATE_KEY",
   "FIRESTORE_PATH", "OPENAI_API_KEY", "ANTHROPIC_API_KEY", "PORT", "HOST",
   "DEBUG", "DATABASE_COLLECTION_USERS", "DATABASE_COLLECTION_LESSON_PLANS",
   "DATABASE_COLLECTION_PROMPTS", "DATABASE_COLLECTION_KNOWLEDGE_GRAPHS",
   "MAX_LESSONS_PER_PLAN", "MAX_EXTERNAL_RESOURCES_PER_LESSON"]

/-- Python's `int(...)` on a nonnegative decimal literal; `none` when `int`
would raise `ValueError`. -/
def pyInt? (s : String) : Option Nat :=
  let cs := s.toList
  if cs.isEmpty then none
  else if cs.all Char.isDigit then
    some (cs.foldl (fun acc c => acc * 10 + (c.toNat - 48)) 0)
  else none

/-- Does `hay` start with `needle`? -/
def charsPrefix : List Char → List Char → Bool
  | [], _ => true
  | _ :: _, [] => false
  | a :: as, b :: bs => a == b && charsPrefix as bs

/-- Does `hay` contain `needle` as a contiguous substring? -/
def charsSub (needle : List Char) : List Char → Bool
  | [] => needle.isEmpty
  | c :: rest => charsPrefix needle (c :: rest) || charsSub needle rest

/-- Python's `needle in hay` on strings. -/
def strContains (hay needle : String) : Bool :=
  charsSub needle.toList hay.toList

/-- Python's `str.lower()` (ASCII, which covers the embedded uses). -/
def pyLower (s : String) : String :=
  String.mk (s.toList.map Char.toLower)

/-- Builds a `Config` from the environment, as the class body does at import
time.  `int(...)` is modelled by `pyInt?` (`none` when Python's `int` would
raise). -/
def mkConfig (env : Env) : Option Config := do
  let port ← pyInt? (getenv env "PORT" "8000")
  let maxLessons ← pyInt? (getenv env "MAX_LESSONS_PER_PLAN" "10")
  let maxResources ← pyInt? (getenv env "MAX_EXTERNAL_RESOURCES_PER_LESSON" "5")
  some ⟨getenv env "FIREBASE_PROJECT_ID" "",
        getenv env "FIREBASE_CLIENT_EMAIL" "",
        getenv env "FIREBASE_PRIVATE_KEY" "",
        env "FIRESTORE_PATH",
        getenv env "OPENAI_API_KEY" "",
        getenv env "ANTHROPIC_API_KEY" "",
        port,
        getenv env "HOST" "0.0.0.0",
        pyLower (getenv env "DEBUG" "false") == "true",
        "users", "lessonPlans", "prompts", "knowledgeGraphs",
        maxLessons, maxResources⟩

/-! ## main.py — request models and the two /api/user-prompt handlers -/

/-- Python's `str.strip()`: drop leading and trailing whitespace. -/
def pyStrip (s : String) : String :=
  String.mk (((s.toList.dropWhile Char.isWhitespace).reverse.dropWhile
    Char.isWhitespace).reverse)

/-- Python's `x or default` for an optional string field (falsy for `None`
and for `""`). -/
def pyOrStr (o : Option String) (d : String) : String :=
  match o with
  | some s => if s = "" then d else s
  | none => d

/-- `UserPromptRequest` (main.py, lines 108-112).  `learningStyle` keeps its
`Optional[str]` type; pydantic's default gives it `some "adaptive"` when the
field is omitted at construction. -/
structure UserPromptRequest where
  userId : String
  prompt : String
  context : Option Ctx
  learningStyle : Option String
deriving DecidableEq, Repr

/-- Pydantic validation on `UserPromptRequest` construction:
`userId` has `min_length=1, max_length=100`; `prompt` has
`min_length=1, max_length=2000`.  Violation raises `ValidationError`. -/
def mkUserPromptRequest (userId prompt : String) (context : Option Ctx)
    (learningStyle : Option String) : Except PyExc UserPromptRequest :=
  if userId.length < 1 ∨ 100 < userId.length then
    .error ⟨"ValidationError", "userId"⟩
  else if prompt.length < 1 ∨ 2000 < prompt.length then
    .error ⟨"ValidationError", "prompt"⟩
  else
    .ok ⟨userId, prompt, context, learningStyle⟩

/-- The `users/{uid}` document that `post_user_prompt` creates for an unknown
user (main.py, lines 312-322). -/
structure UserDoc where
  uid : String
  createdAt : Nat
  lastActive : Nat
  learningStyle : String
  difficultyLevel : String
  timeAvailability : Nat
deriving DecidableEq, Repr

/-- The `prompt_data` document stored by `post_user_prompt`
(main.py, lines 326-338). -/
structure PromptDoc where
  userId : String
  prompt : String
  context : Ctx
  learningStyle : String
  timestamp : Nat
  status : String
  planId : String
deriving DecidableEq, Repr

/-- The Firestore state the two `/api/user-prompt` handlers read and write:
the `users` collection, the per-user `prompts` subcollections (keyed by
`(userId, planId)`), and the global `prompts` collection (keyed by
`planId`). -/
structure DB where
  users : List (String × UserDoc)
  userPrompts : List (String × String × PromptDoc)
  globalPrompts : List (String × PromptDoc)
deriving DecidableEq, Repr

/-- `UserPromptPostResponse` (main.py, lines 121-128). -/
structure PostResponse where
  success : Bool
  message : String
  userId : String
  prompt : String
  planId : Option String
  estimatedDuration : Option Nat
  difficulty : Option String
deriving DecidableEq, Repr

/-- An `HTTPException(status_code, detail)`. -/
structure HTTPError where
  statusCode : Nat
  detail : String
deriving DecidableEq, Repr

/-- The `prompt_data` dictionary built by `post_user_prompt` after the
`planId` assignment (main.py, lines 326-338): `context or \x7b\x7d`,
`learningStyle or "adaptive"`, status `"processing"`, `planId = plan_id`. -/
def mkPromptDoc (req : UserPromptRequest) (plan_id : String) (now : Nat) :
    PromptDoc :=
  ⟨req.userId, req.prompt, req.context.getD [],
   pyOrStr req.learningStyle "adaptive", now, "processing", plan_id⟩

/-- `post_user_prompt` (main.py, lines 296-377).  `gen` is the value of
`str(uuid.uuid4())` drawn for this call, `now` the current time.  The handler
creates the user document when it is absent, assigns `plan_id = gen` once,
stores the prompt document under the user's subcollection and the global
collection, and returns the success response.  All storage operations are
modelled as pure state updates, so the `except` branch (500 on a storage
fault) is unreachable in the model. -/
def post_user_prompt (req : UserPromptRequest) (db : DB) (gen : String)
    (now : Nat) : PostResponse × DB :=
  let db1 :=
    if (db.users.lookup req.userId).isSome then db
    else { db with
           users := (req.userId,
             ⟨req.userId, now, now, pyOrStr req.learningStyle "adaptive",
              "beginner", 30⟩) :: db.users }
  let plan_id := gen
  let pdoc := mkPromptDoc req plan_id now
  let db2 := { db1 with
               userPrompts := (req.userId, plan_id, pdoc) :: db1.userPrompts,
               globalPrompts := (plan_id, pdoc) :: db1.globalPrompts }
  (⟨true,
    "Prompt received and processing started. AI agents are working on your personalized learning plan.",
    req.userId, req.prompt, some plan_id, some 15, some "adaptive"⟩, db2)

/-- `get_user_prompt` (main.py, lines 256-293): 400 when `userId` or `prompt`
is empty after stripping; otherwise it builds
`UserPromptRequest(userId=userId.strip(), prompt=prompt.strip())` (context
`None`, learning style left at its `"adaptive"` default) and forwards to
`post_user_prompt`; any exception in that block is re-raised as a 500. -/
def get_user_prompt (userId prompt : String) (db : DB) (gen : String)
    (now : Nat) : Except HTTPError (PostResponse × DB) :=
  if pyStrip userId = "" then
    .error ⟨400, "Missing or invalid userId"⟩
  else if pyStrip prompt = "" then
    .error ⟨400, "Missing or invalid prompt"⟩
  else
    match mkUserPromptRequest (pyStrip userId) (pyStrip prompt) none
        (some "adaptive") with
    | .error e => .error ⟨500, "Failed to process request: " ++ e.msg⟩
    | .ok req => .ok (post_user_prompt req db gen now)

/-! ## main.py — rate_limit_middleware (deep embedding)

The middleware's fault is a Python *scoping* fault, so the function body is
embedded deeply: a statement list evaluated under Python's rule that a name
assigned anywhere in a function body is local to the whole body (the
function has no `global` declaration), and that reading a local before its
first assignment raises `UnboundLocalError`. -/

/-- One entry of the rate-limit dictionary:
`\x7b'count': ..., 'timestamp': ...\x7d`. -/
structure RLEntry where
  count : Nat
  timestamp : Nat
deriving DecidableEq, Repr

/-- The module-level `rate_limit_storage` dictionary (main.py, line 69),
keyed by client IP. -/
abbrev RLStorage := List (String × RLEntry)

/-- Runtime values of the middleware body. -/
inductive PyVal where
  | str (s : String)
  | num (n : Nat)
  | bool (b : Bool)
  | storage (st : RLStorage)
  | response (statusCode : Nat)
deriving DecidableEq, Repr

/-- Runtime errors of the middleware body. -/
inductive PyRunErr where
  | unboundLocalError (name : String)
  | nameError (name : String)
  | typeError
  | keyError
deriving DecidableEq, Repr

/-- Expressions occurring in `rate_limit_middleware`
(main.py, lines 171-193), one constructor per source expression shape. -/
inductive RExpr where
  | var (n : String)
  | reqClientHost
  | timeNow
  | cleanOld (src now : RExpr)
  | inKeys (key src : RExpr)
  | countAtLeastLimit (key src : RExpr)
  | make429
  | bumpCount (key src : RExpr)
  | withNewEntry (key now src : RExpr)
  | callNext
deriving DecidableEq, Repr

/-- Statements of the middleware body. -/
inductive RStmt where
  | assign (n : String) (e : RExpr)
  | ifElse (c : RExpr) (thn els : List RStmt)
  | ret (e : RExpr)

mutual

/-- Names assigned by a statement (anywhere, including branches):
Python makes each of them local to the enclosing function body. -/
def stmtAssigned : RStmt → List String
  | .assign n _ => [n]
  | .ifElse _ thn els => stmtsAssigned thn ++ stmtsAssigned els
  | .ret _ => []

/-- Names assigned anywhere in a statement list. -/
def stmtsAssigned : List RStmt → List String
  | [] => []
  | s :: rest => stmtAssigned s ++ stmtsAssigned rest

end

/-- Evaluation state of one middleware invocation: the bound locals, the set
of names that are local to the body, the module-level dictionary, and the
request's fields. -/
structure RState where
  locals : List (String × PyVal)
  localNames : List String
  globalsStorage : RLStorage
  clientHost : String
  now : Nat
  nextStatus : Nat
deriving Repr

/-- Python name lookup inside the function: a name that is assigned
somewhere in the body is local; reading it before its first assignment
raises `UnboundLocalError`; other names fall back to module globals. -/
def readVar (st : RState) (n : String) : Except PyRunErr PyVal :=
  if st.localNames.contains n then
    match st.locals.lookup n with
    | some v => .ok v
    | none => .error (.unboundLocalError n)
  else if n = "rate_limit_storage" then
    .ok (.storage st.globalsStorage)
  else
    .error (.nameError n)

/-- Expression evaluation (main.py, lines 171-193). -/
def evalRExpr (st : RState) : RExpr → Except PyRunErr PyVal
  | .var n => readVar st n
  | .reqClientHost => .ok (.str st.clientHost)
  | .timeNow => .ok (.num st.now)
  | .cleanOld src now => do
      let vs ← evalRExpr st src
      let vt ← evalRExpr st now
      match vs, vt with
      | .storage s, .num t =>
          .ok (.storage (s.filter (fun kv => t - kv.2.timestamp < 60)))
      | _, _ => .error .typeError
  | .inKeys key src => do
      let vk ← evalRExpr st key
      let vs ← evalRExpr st src
      match vk, vs with
      | .str k, .storage s => .ok (.bool ((s.lookup k).isSome))
      | _, _ => .error .typeError
  | .countAtLeastLimit key src => do
      let vk ← evalRExpr st key
      let vs ← evalRExpr st src
      match vk, vs with
      | .str k, .storage s =>
          match s.lookup k with
          | some e => .ok (.bool (e.count ≥ 100))
          | none => .error .keyError
      | _, _ => .error .typeError
  | .make429 => .ok (.response 429)
  | .bumpCount key src => do
      let vk ← evalRExpr st key
      let vs ← evalRExpr st src
      match vk, vs with
      | .str k, .storage s =>
          match s.lookup k with
          | some e =>
              .ok (.storage (s.map (fun kv =>
                if kv.1 = k then (kv.1, ⟨e.count + 1, e.timestamp⟩) else kv)))
          | none => .error .keyError
      | _, _ => .error .typeError
  | .withNewEntry key now src => do
      let vk ← evalRExpr st key
      let vt ← evalRExpr st now
      let vs ← evalRExpr st src
      match vk, vt, vs with
      | .str k, .num t, .storage s =>
          .ok (.storage ((k, (⟨1, t⟩ : RLEntry)) ::
            s.filter (fun kv => kv.1 ≠ k)))
      | _, _, _ => .error .typeError
  | .callNext => .ok (.response st.nextStatus)

mutual

/-- Executes one statement; `some v` signals a `return v`.  Assignment binds
a *local* (the body has no `global` declaration), never the module-level
dictionary. -/
def execRStmt (st : RState) : RStmt → Except PyRunErr (Option PyVal × RState)
  | .assign n e => do
      let v ← evalRExpr st e
      .ok (none, { st with locals := (n, v) :: st.locals })
  | .ifElse c thn els => do
      let v ← evalRExpr st c
      match v with
      | .bool true => execRStmts st thn
      | .bool false => execRStmts st els
      | _ => .error .typeError
  | .ret e => do
      let v ← evalRExpr st e
      .ok (some v, st)

/-- Executes a statement list, stopping at the first `return`. -/
def execRStmts (st : RState) : List RStmt → Except PyRunErr (Option PyVal × RState)
  | [] => .ok (none, st)
  | s :: rest => do
      let (r, st') ← execRStmt st s
      match r with
      | some v => .ok (some v, st')
      | none => execRStmts st' rest

end

/-- The body of `rate_limit_middleware` (main.py, lines 171-193),
statement by statement:
`client_ip = request.client.host`;
`current_time = time.time()`;
`rate_limit_storage = \x7bk: v for k, v in rate_limit_storage.items() if current_time - v['timestamp'] < 60\x7d`;
the `if client_ip in rate_limit_storage` block with the 429 early return and
the count bump, else the fresh-entry insert;
`response = await call_next(request)`; `return response`. -/
def middlewareBody : List RStmt :=
  [.assign "client_ip" .reqClientHost,
   .assign "current_time" .timeNow,
   .assign "rate_limit_storage"
     (.cleanOld (.var "rate_limit_storage") (.var "current_time")),
   .ifElse (.inKeys (.var "client_ip") (.var "rate_limit_storage"))
     [.ifElse (.countAtLeastLimit (.var "client_ip")
         (.var "rate_limit_storage"))
        [.ret .make429] [],
      .assign "rate_limit_storage"
        (.bumpCount (.var "client_ip") (.var "rate_limit_storage"))]
     [.assign "rate_limit_storage"
        (.withNewEntry (.var "client_ip") (.var "current_time")
          (.var "rate_limit_storage"))],
   .assign "response" .callNext,
   .ret (.var "response")]

/-- One invocation of `rate_limit_middleware` on a request: locals start
unbound, the local-name set is computed from the body's assignments, and the
module-level dictionary is `globals`. -/
def rate_limit_middleware (globals : RLStorage) (clientHost : String)
    (now : Nat) (nextStatus : Nat) : Except PyRunErr (Option PyVal × RState) :=
  execRStmts ⟨[], stmtsAssigned middlewareBody, globals, clientHost, now,
    nextStatus⟩ middlewareBody

/-! ## Theorems -/

/-- C1: whenever the leader-team invocation raises an exception,
`generate_learning_plan` catches it and returns the structured
`success=False` outcome carrying the human-readable message (`str(e)`), the
stable classification (`type(e).__name__`), and the retry recommendation
(`should_retry(e)`), instead of propagating the fault: the function is total
and the failure outcome is exactly this dictionary. -/
theorem generate_learning_plan_catches_exceptions
    (runLeader : String → Except PyExc AgentResponse)
    (uid prompt : String) (ctx : Option Ctx) (e : PyExc)
    (h : runLeader (enhanced_prompt uid prompt ctx) = .error e) :
    generate_learning_plan runLeader uid prompt ctx
      = .failed ⟨uid, prompt, e.msg, e.name, should_retry e⟩
    ∧ (generate_learning_plan runLeader uid prompt ctx).success = false := by
  unfold generate_learning_plan generate_learning_plan_runs
  simp [h, Outcome.success]

/-- C1 witness: a leader that raises `TimeoutError("timed out")` yields the
concrete `success=False` outcome with `retry_recommended = true`. -/
theorem generate_learning_plan_catches_exceptions_witness :
    generate_learning_plan (fun _ => .error ⟨"TimeoutError", "timed out"⟩)
      "u1" "learn" none
      = .failed ⟨"u1", "learn", "timed out", "TimeoutError", true⟩ :=
  (generate_learning_plan_catches_exceptions
    (fun _ => .error ⟨"TimeoutError", "timed out"⟩) "u1" "learn" none
    ⟨"TimeoutError", "timed out"⟩ rfl).1

/-- C2 counterexample: with a worker that fails with a transient
`TimeoutError` on every attempt, `generate_learning_plan` performs exactly
`1` leader invocation — not the claimed `retry_maximum + 1 = 3 + 1 = 4` —
and returns the failure outcome (with `retry_recommended = true`) rather
than retrying. -/
theorem generate_learning_plan_attempt_count_counterexample :
    (generate_learning_plan_runs (fun _ => .error ⟨"TimeoutError", "timed out"⟩)
        "u1" "learn" none).2 = 1
    ∧ (generate_learning_plan_runs (fun _ => .error ⟨"TimeoutError", "timed out"⟩)
        "u1" "learn" none).2 ≠ 3 + 1
    ∧ (generate_learning_plan_runs (fun _ => .error ⟨"TimeoutError", "timed out"⟩)
        "u1" "learn" none).1
        = .failed ⟨"u1", "learn", "timed out", "TimeoutError", true⟩ :=
  ⟨rfl, by decide, rfl⟩

/-- C2 amended: on a worker failure the code makes exactly one attempt —
there is no retry loop and no configured retry maximum — and the single
transient failure is returned to the caller as the `success=False` outcome
with `retry_recommended` set by `should_retry`, leaving any retry to the
caller. -/
theorem generate_learning_plan_single_attempt
    (worker : Nat → Except PyExc AgentResponse)
    (uid prompt : String) (ctx : Option Ctx) (e : PyExc)
    (h : worker 0 = .error e) :
    (generate_learning_plan_runs worker uid prompt ctx).2 = 1
    ∧ (generate_learning_plan_runs worker uid prompt ctx).1
        = .failed ⟨uid, prompt, e.msg, e.name, should_retry e⟩ := by
  unfold generate_learning_plan_runs
  simp [h]

/-- C2 amended witness: the always-timing-out worker makes one attempt and
returns the failure outcome. -/
theorem generate_learning_plan_single_attempt_witness :
    (generate_learning_plan_runs (fun _ => .error ⟨"TimeoutError", "t"⟩)
        "u1" "learn" none).2 = 1
    ∧ (generate_learning_plan_runs (fun _ => .error ⟨"TimeoutError", "t"⟩)
        "u1" "learn" none).1
        = .failed ⟨"u1", "learn", "t", "TimeoutError",
            should_retry ⟨"TimeoutError", "t"⟩⟩ :=
  generate_learning_plan_single_attempt
    (fun _ => .error ⟨"TimeoutError", "t"⟩) "u1" "learn" none
    ⟨"TimeoutError", "t"⟩ rfl

/-- C3: the quality score is a deterministic function of the artifact's
shape — base `0.5`, `+0.2` when the content length exceeds `1000`, a further
`+0.1` when it exceeds `2000`, `+0.2` when the response carries structured
output, clamped at `1` — and the result always lies in `[0, 1]`. -/
theorem calculate_quality_score_shape (r : AgentResponse) :
    calculate_quality_score r
      = min ((1/2 : ℚ) + (if 1000 < contentLen r then 2/10 else 0)
          + (if 2000 < contentLen r then 1/10 else 0)
          + (if r.structured_outputs then 2/10 else 0)) 1
    ∧ 0 ≤ calculate_quality_score r ∧ calculate_quality_score r ≤ 1 := by
  have hx : (0:ℚ) ≤ 1/2 + (if 1000 < contentLen r then 2/10 else 0)
      + (if 2000 < contentLen r then 1/10 else 0)
      + (if r.structured_outputs then 2/10 else 0) := by
    split_ifs <;> norm_num
  have heq : calculate_quality_score r
      = min ((1/2 : ℚ) + (if 1000 < contentLen r then 2/10 else 0)
          + (if 2000 < contentLen r then 1/10 else 0)
          + (if r.structured_outputs then 2/10 else 0)) 1 := by
    rcases r with ⟨content, so⟩
    cases content with
    | none =>
      simp only [calculate_quality_score, contentLen]
      split_ifs <;> (try omega) <;> norm_num
    | some s =>
      by_cases hs : s = ""
      · subst hs
        have h0 : ("" : String).length = 0 := rfl
        simp only [calculate_quality_score, contentLen, h0]
        split_ifs <;> (try omega) <;> norm_num
      · simp only [calculate_quality_score, contentLen, hs, if_false]
        split_ifs <;> (try omega) <;> norm_num
  exact ⟨heq, by rw [heq]; exact le_min hx (by norm_num),
    by rw [heq]; exact min_le_right _ _⟩

/-- C4: `should_retry` returns `true` exactly when the raised error is one
of the four transient provider errors (connection, timeout, rate-limit,
service-unavailable), and in particular returns `false` for
schema-validation and authorization failures. -/
theorem should_retry_iff_transient (e : PyExc) :
    (should_retry e = true ↔
      e.name = "ConnectionError" ∨ e.name = "TimeoutError"
        ∨ e.name = "RateLimitError" ∨ e.name = "ServiceUnavailableError")
    ∧ should_retry ⟨"SchemaValidationError", "m"⟩ = false
    ∧ should_retry ⟨"AuthorizationError", "m"⟩ = false := by
  refine ⟨?_, by decide, by decide⟩
  simp [should_retry, retryable_errors, List.contains, List.elem_eq_mem,
    decide_eq_true_eq, List.mem_cons]

/-- A non-empty string has length at least one. -/
theorem strLen_pos {s : String} (h : s ≠ "") : 1 ≤ s.length := by
  rcases s with ⟨data⟩
  cases data with
  | nil => exact absurd rfl h
  | cons c cs => simp [String.length]

/-- C6 counterexample: a submission naming the unknown user `"u1"` against
an empty database does not fail — `post_user_prompt` silently creates the
user record and returns `success = true`. -/
theorem post_user_prompt_unknown_user_counterexample :
    ((post_user_prompt ⟨"u1", "learn calculus", none, some "adaptive"⟩
        ⟨[], [], []⟩ "pid-1" 0).1.success = true)
    ∧ ((⟨[], [], []⟩ : DB).users.lookup "u1" = none)
    ∧ ((post_user_prompt ⟨"u1", "learn calculus", none, some "adaptive"⟩
        ⟨[], [], []⟩ "pid-1" 0).2.users.lookup "u1")
        = some ⟨"u1", 0, 0, "adaptive", "beginner", 30⟩ :=
  ⟨rfl, rfl, rfl⟩

/-- C6 amended: for every submission naming a user_id with no user record,
`post_user_prompt` silently creates the user document (default preferences,
learning style from the request or `"adaptive"`) and proceeds to a
`success = true` response — no failure is surfaced. -/
theorem post_user_prompt_creates_unknown_user (req : UserPromptRequest)
    (db : DB) (gen : String) (now : Nat)
    (h : db.users.lookup req.userId = none) :
    (post_user_prompt req db gen now).1.success = true
    ∧ (post_user_prompt req db gen now).2.users.lookup req.userId
        = some ⟨req.userId, now, now, pyOrStr req.learningStyle "adaptive",
            "beginner", 30⟩ := by
  unfold post_user_prompt
  simp [h]

/-- C6 amended witness: the concrete unknown user `"u2"`. -/
theorem post_user_prompt_creates_unknown_user_witness :
    (post_user_prompt ⟨"u2", "learn", none, some "visual"⟩
        ⟨[], [], []⟩ "pid-9" 7).1.success = true
    ∧ (post_user_prompt ⟨"u2", "learn", none, some "visual"⟩
        ⟨[], [], []⟩ "pid-9" 7).2.users.lookup "u2"
        = some ⟨"u2", 7, 7, pyOrStr (some "visual") "adaptive",
            "beginner", 30⟩ :=
  post_user_prompt_creates_unknown_user ⟨"u2", "learn", none, some "visual"⟩
    ⟨[], [], []⟩ "pid-9" 7 rfl

/-- C7: `post_user_prompt` assigns the freshly generated identifier as
`plan_id` exactly once — the response and both stored prompt documents all
carry the same `plan_id`, never reassigned — the identifier is non-empty
whenever the generator's output is (`str(uuid.uuid4())` always is), and two
runs whose generated identifiers differ (uuid4 collision resistance,
supplied as a hypothesis) produce different plan_ids. -/
theorem post_user_prompt_plan_id_unique (req1 req2 : UserPromptRequest)
    (db1 db2 : DB) (g1 g2 : String) (t1 t2 : Nat)
    (hg : g1 ≠ "") (hne : g1 ≠ g2) :
    (post_user_prompt req1 db1 g1 t1).1.planId = some g1
    ∧ g1 ≠ ""
    ∧ (post_user_prompt req1 db1 g1 t1).2.userPrompts.head?
        = some (req1.userId, g1, mkPromptDoc req1 g1 t1)
    ∧ (post_user_prompt req1 db1 g1 t1).2.globalPrompts.head?
        = some (g1, mkPromptDoc req1 g1 t1)
    ∧ (post_user_prompt req2 db2 g2 t2).1.planId
        ≠ (post_user_prompt req1 db1 g1 t1).1.planId := by
  refine ⟨rfl, hg, rfl, rfl, ?_⟩
  show some g2 ≠ some g1
  intro hc
  exact hne (Option.some.inj hc).symm

/-- C7 witness: two concrete runs with distinct generated identifiers. -/
theorem post_user_prompt_plan_id_unique_witness :
    (post_user_prompt ⟨"u1", "p1", none, some "adaptive"⟩
        ⟨[], [], []⟩ "pid-1" 0).1.planId = some "pid-1"
    ∧ ("pid-1" : String) ≠ ""
    ∧ (post_user_prompt ⟨"u1", "p1", none, some "adaptive"⟩
        ⟨[], [], []⟩ "pid-1" 0).2.userPrompts.head?
        = some ("u1", "pid-1",
            mkPromptDoc ⟨"u1", "p1", none, some "adaptive"⟩ "pid-1" 0)
    ∧ (post_user_prompt ⟨"u1", "p1", none, some "adaptive"⟩
        ⟨[], [], []⟩ "pid-1" 0).2.globalPrompts.head?
        = some ("pid-1",
            mkPromptDoc ⟨"u1", "p1", none, some "adaptive"⟩ "pid-1" 0)
    ∧ (post_user_prompt ⟨"u2", "p2", none, some "adaptive"⟩
        ⟨[], [], []⟩ "pid-2" 1).1.planId
        ≠ (post_user_prompt ⟨"u1", "p1", none, some "adaptive"⟩
            ⟨[], [], []⟩ "pid-1" 0).1.planId :=
  post_user_prompt_plan_id_unique ⟨"u1", "p1", none, some "adaptive"⟩
    ⟨"u2", "p2", none, some "adaptive"⟩ ⟨[], [], []⟩ ⟨[], [], []⟩
    "pid-1" "pid-2" 0 1 (by decide) (by decide)

/-- C8 counterexample: built from an empty environment, the configuration's
defaults are `MAX_LESSONS_PER_PLAN = 10` and
`MAX_EXTERNAL_RESOURCES_PER_LESSON = 5`, and no attribute of the `Config`
class mentions a retry maximum at all — the claimed retry-maximum default of
`3` does not exist in the configuration. -/
theorem config_no_retry_maximum_counterexample :
    mkConfig (fun _ => none)
      = some ⟨"", "", "", none, "", "", 8000, "0.0.0.0", false,
          "users", "lessonPlans", "prompts", "knowledgeGraphs", 10, 5⟩
    ∧ configFieldNames.all (fun n => !(strContains n "RETRY")) = true
    ∧ configFieldNames.all (fun n => !(strContains n "Retry")) = true :=
  ⟨rfl, by decide, by decide⟩

/-- C8 amended: `MAX_LESSONS_PER_PLAN` defaults to `10` and
`MAX_EXTERNAL_RESOURCES_PER_LESSON` defaults to `5`, each overridden by the
corresponding environment variable when it parses as an integer; the
configuration defines no retry maximum. -/
theorem config_defaults_overridable (env : Env) (c : Config)
    (h : mkConfig env = some c) :
    (env "MAX_LESSONS_PER_PLAN" = none → c.MAX_LESSONS_PER_PLAN = 10)
    ∧ (env "MAX_EXTERNAL_RESOURCES_PER_LESSON" = none →
        c.MAX_EXTERNAL_RESOURCES_PER_LESSON = 5)
    ∧ (∀ s n, env "MAX_LESSONS_PER_PLAN" = some s → pyInt? s = some n →
        c.MAX_LESSONS_PER_PLAN = n)
    ∧ (∀ s n, env "MAX_EXTERNAL_RESOURCES_PER_LESSON" = some s →
        pyInt? s = some n → c.MAX_EXTERNAL_RESOURCES_PER_LESSON = n) := by
  unfold mkConfig at h
  rcases hp : pyInt? (getenv env "PORT" "8000") with _ | port <;> rw [hp] at h
  · simp at h
  rcases hl : pyInt? (getenv env "MAX_LESSONS_PER_PLAN" "10") with _ | ml <;>
    rw [hl] at h
  · simp at h
  rcases hr : pyInt? (getenv env "MAX_EXTERNAL_RESOURCES_PER_LESSON" "5")
      with _ | mr <;> rw [hr] at h
  · simp at h
  obtain rfl : c = _ := (Option.some.inj h).symm
  refine ⟨?_, ?_, ?_, ?_⟩
  · intro hn
    simp only [getenv, hn, Option.getD] at hl
    rw [show pyInt? "10" = some 10 from rfl] at hl
    exact (Option.some.inj hl).symm
  · intro hn
    simp only [getenv, hn, Option.getD] at hr
    rw [show pyInt? "5" = some 5 from rfl] at hr
    exact (Option.some.inj hr).symm
  · intro s n hs hpn
    simp only [getenv, hs, Option.getD] at hl
    rw [hpn] at hl
    exact (Option.some.inj hl).symm
  · intro s n hs hpn
    simp only [getenv, hs, Option.getD] at hr
    rw [hpn] at hr
    exact (Option.some.inj hr).symm

/-- C8 amended witness: the empty environment gives the defaults `10` and
`5`, and the override hypotheses hold vacuously there. -/
theorem config_defaults_overridable_witness :
    ((fun _ => none : Env) "MAX_LESSONS_PER_PLAN" = none →
      (⟨"", "", "", none, "", "", 8000, "0.0.0.0", false, "users",
        "lessonPlans", "prompts", "knowledgeGraphs", 10, 5⟩ :
        Config).MAX_LESSONS_PER_PLAN = 10)
    ∧ ((fun _ => none : Env) "MAX_EXTERNAL_RESOURCES_PER_LESSON" = none →
      (⟨"", "", "", none, "", "", 8000, "0.0.0.0", false, "users",
        "lessonPlans", "prompts", "knowledgeGraphs", 10, 5⟩ :
        Config).MAX_EXTERNAL_RESOURCES_PER_LESSON = 5)
    ∧ (∀ s n, (fun _ => none : Env) "MAX_LESSONS_PER_PLAN" = some s →
        pyInt? s = some n →
        (⟨"", "", "", none, "", "", 8000, "0.0.0.0", false, "users",
          "lessonPlans", "prompts", "knowledgeGraphs", 10, 5⟩ :
          Config).MAX_LESSONS_PER_PLAN = n)
    ∧ (∀ s n, (fun _ => none : Env) "MAX_EXTERNAL_RESOURCES_PER_LESSON"
          = some s → pyInt? s = some n →
        (⟨"", "", "", none, "", "", 8000, "0.0.0.0", false, "users",
          "lessonPlans", "prompts", "knowledgeGraphs", 10, 5⟩ :
          Config).MAX_EXTERNAL_RESOURCES_PER_LESSON = n) :=
  config_defaults_overridable (fun _ => none)
    ⟨"", "", "", none, "", "", 8000, "0.0.0.0", false, "users",
     "lessonPlans", "prompts", "knowledgeGraphs", 10, 5⟩ rfl

/-- C9: on every request — any module-level dictionary contents, client
address, time, and downstream response — `rate_limit_middleware` raises
`UnboundLocalError` on the name `rate_limit_storage` (the body assigns the
name, making it function-local, and the assignment's right-hand side reads
it before it is bound); consequently the middleware never completes, so it
never returns any response (in particular never a 429 rejection), and the
module-level dictionary — which assignment statements in the body can never
target, lacking a `global` declaration — is never updated. -/
theorem rate_limit_middleware_always_unbound_local (g : RLStorage)
    (host : String) (now nextStatus : Nat) :
    rate_limit_middleware g host now nextStatus
      = .error (.unboundLocalError "rate_limit_storage")
    ∧ (∀ v st, rate_limit_middleware g host now nextStatus ≠ .ok (v, st)) := by
  refine ⟨rfl, ?_⟩
  intro v st h
  rw [show rate_limit_middleware g host now nextStatus
    = .error (.unboundLocalError "rate_limit_storage") from rfl] at h
  exact Except.noConfusion h

/-- C10: for inputs that are non-empty after stripping (and within the
request model's length bounds, without which the forwarded request cannot
be constructed), the GET handler returns exactly the value — response and
database writes — produced by the POST handler applied to the request built
from the stripped `userId` and `prompt`, with no context and the default
`"adaptive"` learning style. -/
theorem get_user_prompt_refines_post (userId prompt : String) (db : DB)
    (gen : String) (now : Nat)
    (h1 : pyStrip userId ≠ "") (h2 : pyStrip prompt ≠ "")
    (h3 : (pyStrip userId).length ≤ 100)
    (h4 : (pyStrip prompt).length ≤ 2000) :
    get_user_prompt userId prompt db gen now
      = .ok (post_user_prompt
          ⟨pyStrip userId, pyStrip prompt, none, some "adaptive"⟩
          db gen now) := by
  have l1 : ¬((pyStrip userId).length < 1 ∨ 100 < (pyStrip userId).length) := by
    push_neg
    exact ⟨strLen_pos h1, h3⟩
  have l2 : ¬((pyStrip prompt).length < 1 ∨ 2000 < (pyStrip prompt).length) := by
    push_neg
    exact ⟨strLen_pos h2, h4⟩
  unfold get_user_prompt mkUserPromptRequest
  rw [if_neg h1, if_neg h2, if_neg l1, if_neg l2]

/-- C10 witness: concrete padded inputs. -/
theorem get_user_prompt_refines_post_witness :
    get_user_prompt " u1 " " learn topology " ⟨[], [], []⟩ "pid-1" 0
      = .ok (post_user_prompt
          ⟨pyStrip " u1 ", pyStrip " learn topology ", none, some "adaptive"⟩
          ⟨[], [], []⟩ "pid-1" 0) :=
  get_user_prompt_refines_post " u1 " " learn topology " ⟨[], [], []⟩
    "pid-1" 0 (by decide) (by decide) (by decide) (by decide)

end KnowFlow
